import Mathlib

/-!
Verification of the `rdls` Hyprland IPC client core: a shallow embedding of
the dispatch encoder (`src/hyprland/dispatch.rs`), the event-line tokenizer
and decoder (`src/hyprland/events.rs`), the JSON window-address string
decoder and the runtime-directory resolver (`src/hyprland/mod.rs`), together
with theorems settling the specification claims about them.

Machine integers are modelled as `Int` (for Rust `i32`) and `Nat` (for Rust
`u64`/`u32`); the parsers carry the exact range checks that
`from_str_radix` performs, so overflow behaviour is preserved.
-/

/-! ## Data model (`src/hyprland/mod.rs`)

`WorkspaceId(pub i32)` and `WindowAddress(pub u64)` are transparent
newtypes; we model their payloads directly. -/

abbrev WorkspaceId := Int

abbrev WindowAddress := Nat

/-! ## Decimal formatting helpers

Rust's `Display` for integers renders decimal with a leading `-` for
negative values; the `{:+}` format flag forces an explicit sign. -/

/-- Rust `{}` on an `i32`: decimal, `-` sign only when negative. -/
def fmtI32 (n : Int) : String :=
  if n < 0 then "-" ++ Nat.repr n.natAbs else Nat.repr n.natAbs

/-- Rust `{:+}` on an `i32`: decimal with an explicit `+` or `-` sign. -/
def fmtI32Plus (n : Int) : String :=
  if n < 0 then "-" ++ Nat.repr n.natAbs else "+" ++ Nat.repr n.natAbs

/-- Rust `{}` on a `u32`: unsigned decimal. -/
def fmtU32 (n : Nat) : String := Nat.repr n

/-! ## Dispatch encoder (`src/hyprland/dispatch.rs`) -/

inductive WorkspaceSpec where
  | Id (id : WorkspaceId)
  | RelativeId (id : Int)
  | MonitorRelativeId (id : Int)
  | MonitorAbsoluteId (id : Nat)
  | MonitorIncludingEmptyRelativeId (id : Int)
  | MonitorIncludingEmptyAbsoluteId (id : Nat)
  | OpenRelativeId (id : Int)
  | OpenAbsoluteId (id : Nat)
  | Name (name : String)
  | Previous
  | PreviousPerMonitor
  | Empty (next : Bool) (monitor : Bool)
  | Special (name : Option String)
  deriving DecidableEq

inductive Dispatcher where
  | ChangeWorkspace (spec : WorkspaceSpec)
  deriving DecidableEq

/-- `impl Display for WorkspaceSpec`, arm for arm. -/
def WorkspaceSpec.display : WorkspaceSpec → String
  | .Id id => fmtI32 id
  | .RelativeId id => fmtI32Plus id
  | .MonitorRelativeId id => "m" ++ fmtI32Plus id
  | .MonitorAbsoluteId id => "m~" ++ fmtU32 id
  | .MonitorIncludingEmptyRelativeId id => "r" ++ fmtI32Plus id
  | .MonitorIncludingEmptyAbsoluteId id => "r~" ++ fmtU32 id
  | .OpenRelativeId id => "e" ++ fmtI32Plus id
  | .OpenAbsoluteId id => "e~" ++ fmtU32 id
  | .Name name => "name:" ++ name
  | .Previous => "previous"
  | .PreviousPerMonitor => "previous_per_monitor"
  | .Empty false false => "empty"
  | .Empty true false => "emptyn"
  | .Empty false true => "emptym"
  | .Empty true true => "emptymn"
  | .Special none => "special"
  | .Special (some name) => "special:" ++ name

/-- `impl Display for Dispatcher`. -/
def Dispatcher.display : Dispatcher → String
  | .ChangeWorkspace spec => "workspace " ++ spec.display

/-- The construction claim C2 describes for the `Empty` variant, read
literally: the letter `n` appended first (if `next`), then `m` (if
`monitor`) — "in that fixed order (n before m)". -/
def emptyAppendedNBeforeM (next monitor : Bool) : String :=
  "empty" ++ (if next then "n" else "") ++ (if monitor then "m" else "")

/-! ## Primitive string parsers

Rust's `from_str_radix` grammar: an optional leading `+` (and, for signed
types only, `-`), then one or more digits of the radix; the accumulated
value is range-checked against the target type. `bool::FromStr` accepts
exactly the literals `true` and `false`. -/

/-- Value of a base-16 digit (`0-9`, `a-f`, `A-F`), if any. -/
def hexDigitVal (c : Char) : Option Nat :=
  if '0' ≤ c ∧ c ≤ '9' then some (c.toNat - '0'.toNat)
  else if 'a' ≤ c ∧ c ≤ 'f' then some (c.toNat - 'a'.toNat + 10)
  else if 'A' ≤ c ∧ c ≤ 'F' then some (c.toNat - 'A'.toNat + 10)
  else none

/-- Value of a base-10 digit, if any. -/
def decDigitVal (c : Char) : Option Nat :=
  if '0' ≤ c ∧ c ≤ '9' then some (c.toNat - '0'.toNat) else none

/-- Accumulate digit values left to right; `none` on any non-digit. -/
def accumDigits (radix : Nat) (dv : Char → Option Nat) :
    List Char → Nat → Option Nat
  | [], acc => some acc
  | c :: cs, acc =>
    match dv c with
    | some d => accumDigits radix dv cs (acc * radix + d)
    | none => none

/-- A non-empty all-digit run parsed to its value. -/
def parseNatDigits (radix : Nat) (dv : Char → Option Nat) :
    List Char → Option Nat
  | [] => none
  | cs => accumDigits radix dv cs 0

/-- `u64::from_str_radix(s, 16)`: optional `+`, hex digits, range `< 2^64`. -/
def parseHexU64 (s : String) : Option Nat :=
  let ds := match s.data with
    | '+' :: rest => rest
    | cs => cs
  (parseNatDigits 16 hexDigitVal ds).bind fun n =>
    if n < 2 ^ 64 then some n else none

/-- `i32::from_str_radix(s, 16)`: optional `+`/`-`, hex digits, i32 range. -/
def parseHexI32 (s : String) : Option Int :=
  match s.data with
  | '+' :: rest => (parseNatDigits 16 hexDigitVal rest).bind fun n =>
      if n ≤ 2 ^ 31 - 1 then some (n : Int) else none
  | '-' :: rest => (parseNatDigits 16 hexDigitVal rest).bind fun n =>
      if n ≤ 2 ^ 31 then some (-(n : Int)) else none
  | cs => (parseNatDigits 16 hexDigitVal cs).bind fun n =>
      if n ≤ 2 ^ 31 - 1 then some (n : Int) else none

/-- `str::parse::<u64>()` (decimal): optional `+`, digits, range `< 2^64`. -/
def parseDecU64 (s : String) : Option Nat :=
  let ds := match s.data with
    | '+' :: rest => rest
    | cs => cs
  (parseNatDigits 10 decDigitVal ds).bind fun n =>
    if n < 2 ^ 64 then some n else none

/-- `str::parse::<bool>()`: exactly the literals `true` and `false`. -/
def parseBool (s : String) : Option Bool :=
  if s = "true" then some true else if s = "false" then some false else none

/-! ## Payload splitting (`data.split(',')`)

Rust's `str::split(',')` yields the runs of characters between commas; on
the empty string it yields one empty token. -/

/-- Split a character list on `,`, accumulating the current token. -/
def splitCommaAux : List Char → List Char → List (List Char)
  | [], acc => [acc.reverse]
  | c :: cs, acc =>
    if c = ',' then acc.reverse :: splitCommaAux cs []
    else splitCommaAux cs (c :: acc)

/-- `data.split(',')` collected into a list of tokens. -/
def splitPayload (s : String) : List String :=
  (splitCommaAux s.data []).map String.mk

/-! ## Errors

The source wraps each failure in an `io::Error` with a distinguishing
message; we model the messages as an error enumeration. -/

inductive DecodeError where
  /-- "invalid event format" (no `>>` separator in the line) -/
  | invalidFormat
  /-- "unknown event" -/
  | unknownTag
  /-- "unexpected end of data" -/
  | unexpectedEof
  /-- "invalid integer" -/
  | invalidInteger
  /-- "invalid boolean" -/
  | invalidBoolean
  /-- "invalid window address" (`vec_window_ids` path) -/
  | invalidWindowAddress
  deriving DecidableEq

/-! ## Event type (`HyprlandEvent`, `src/hyprland/events.rs`) -/

inductive ScreencastOwner where
  | Monitor
  | Window
  deriving DecidableEq

inductive HyprlandEvent where
  | WorkspaceChanged (id : WorkspaceId) (name : String)
  | FocusedMonitor (name : String) (workspace : String)
  | ActiveWindow (address : Option WindowAddress)
  | Fullscreen (enter : Bool)
  | MonitorRemoved (name : String)
  | MonitorAdded (id : WorkspaceId) (name : String) (description : String)
  | CreateWorkspace (id : WorkspaceId) (name : String)
  | DestroyWorkspace (id : WorkspaceId) (name : String)
  | MoveWorkspace (id : WorkspaceId) (name : String) (monitor : String)
  | RenameWorkspace (id : WorkspaceId) (newName : String)
  | ActiveSpecial (workspace : String) (monitor : String)
  | ActiveLayout (keyboard : String) (layout : String)
  | OpenWindow (address : WindowAddress) (workspace : String)
      (cls : String) (title : String)
  | CloseWindow (address : WindowAddress)
  | MoveWindow (address : WindowAddress) (workspaceId : WorkspaceId)
      (workspace : String)
  | OpenLayer (namespc : String)
  | CloseLayer (namespc : String)
  | SubMap (name : String)
  | ChangeFloatingMode (address : WindowAddress) (floating : Bool)
  | Urgent (address : WindowAddress)
  | Screencast (state : Bool) (owner : ScreencastOwner)
  | WindowTitle (address : WindowAddress) (title : String)
  | ToggleGroup (created : Bool) (handles : List WindowAddress)
  | MoveIntoGroup (address : WindowAddress)
  | MoveOutOfGroup (address : WindowAddress)
  | IgnoreGroupLock (state : Bool)
  | LockGroups (state : Bool)
  | ConfigReloaded
  | Pin (address : WindowAddress) (pinned : Bool)
  deriving DecidableEq

/-! ## Tokenizer (`DataParser`)

The parser owns the single-pass token iterator; each typed consume takes
the token list and returns the value with the remaining tokens, or an
error. -/

abbrev Tokens := List String

namespace DataParser

/-- `DataParser::next`: the next token, or "unexpected end of data". -/
def next : Tokens → Except DecodeError (String × Tokens)
  | [] => .error .unexpectedEof
  | t :: ts => .ok (t, ts)

/-- `DataParser::next_string`: next token verbatim. -/
def next_string (ts : Tokens) : Except DecodeError (String × Tokens) :=
  next ts

/-- `DataParser::next_workspace_id`: next token via
`i32::from_str_radix(_, 16)`. -/
def next_workspace_id (ts : Tokens) :
    Except DecodeError (WorkspaceId × Tokens) := do
  let (t, ts) ← next ts
  match parseHexI32 t with
  | some n => pure (n, ts)
  | none => .error .invalidInteger

/-- `DataParser::next_window_address`: next token via
`u64::from_str_radix(_, 16)`. -/
def next_window_address (ts : Tokens) :
    Except DecodeError (WindowAddress × Tokens) := do
  let (t, ts) ← next ts
  match parseHexU64 t with
  | some n => pure (n, ts)
  | none => .error .invalidInteger

/-- `DataParser::next_maybe_window_address`: empty token is `none`,
otherwise the hex-parsed address wrapped in `some`. -/
def next_maybe_window_address (ts : Tokens) :
    Except DecodeError (Option WindowAddress × Tokens) := do
  let (t, ts) ← next ts
  if t = "" then pure (none, ts)
  else
    match parseHexU64 t with
    | some n => pure (some n, ts)
    | none => .error .invalidInteger

/-- `DataParser::next_bool`: next token via `str::parse::<bool>()`. -/
def next_bool (ts : Tokens) : Except DecodeError (Bool × Tokens) := do
  let (t, ts) ← next ts
  match parseBool t with
  | some b => pure (b, ts)
  | none => .error .invalidBoolean

/-- `DataParser::vec_window_ids`: every remaining token via the *decimal*
`str::parse::<u64>()`, short-circuiting on the first bad token. -/
def vec_window_ids : Tokens → Except DecodeError (List WindowAddress)
  | [] => .ok []
  | t :: ts =>
    match parseDecU64 t with
    | some n => (vec_window_ids ts).map (n :: ·)
    | none => .error .invalidWindowAddress

end DataParser

/-! ## Event decoder (the `match event { ... }` in `EventStream::listen`) -/

/-- Outcome of decoding one `(tag, payload)` record: an emitted event, a
silently skipped legacy record, or a decode failure. -/
inductive DecodeOutcome where
  | emit (e : HyprlandEvent)
  | skip
  | fail (e : DecodeError)
  deriving DecidableEq

/-- Collapse the `try`-block result into an outcome. -/
def DecodeOutcome.ofExcept : Except DecodeError HyprlandEvent → DecodeOutcome
  | .ok e => .emit e
  | .error e => .fail e

open DataParser in
/-- The tag dispatch of `EventStream::listen`, one arm per source arm; the
payload is split on `,` exactly once and the typed consumers run in the
source's field order. -/
def decodeEvent (tag : String) (payload : String) : DecodeOutcome :=
  let toks := splitPayload payload
  match tag with
  | "workspacev2" => .ofExcept (do
      let (id, toks) ← next_workspace_id toks
      let (name, _) ← next_string toks
      pure (.WorkspaceChanged id name))
  | "focusedmon" => .ofExcept (do
      let (name, toks) ← next_string toks
      let (workspace, _) ← next_string toks
      pure (.FocusedMonitor name workspace))
  | "activewindowv2" => .ofExcept (do
      let (address, _) ← next_maybe_window_address toks
      pure (.ActiveWindow address))
  | "fullscreen" => .ofExcept (do
      let (enter, _) ← next_bool toks
      pure (.Fullscreen enter))
  | "monitorremoved" => .ofExcept (do
      let (name, _) ← next_string toks
      pure (.MonitorRemoved name))
  | "monitoraddedv2" => .ofExcept (do
      let (id, toks) ← next_workspace_id toks
      let (name, toks) ← next_string toks
      let (description, _) ← next_string toks
      pure (.MonitorAdded id name description))
  | "createworkspacev2" => .ofExcept (do
      let (id, toks) ← next_workspace_id toks
      let (name, _) ← next_string toks
      pure (.CreateWorkspace id name))
  | "destroyworkspacev2" => .ofExcept (do
      let (id, toks) ← next_workspace_id toks
      let (name, _) ← next_string toks
      pure (.DestroyWorkspace id name))
  | "moveworkspacev2" => .ofExcept (do
      let (id, toks) ← next_workspace_id toks
      let (name, toks) ← next_string toks
      let (monitor, _) ← next_string toks
      pure (.MoveWorkspace id name monitor))
  | "renameworkspace" => .ofExcept (do
      let (id, toks) ← next_workspace_id toks
      let (newName, _) ← next_string toks
      pure (.RenameWorkspace id newName))
  | "activespecial" => .ofExcept (do
      let (workspace, toks) ← next_string toks
      let (monitor, _) ← next_string toks
      pure (.ActiveSpecial workspace monitor))
  | "activelayout" => .ofExcept (do
      let (keyboard, toks) ← next_string toks
      let (layout, _) ← next_string toks
      pure (.ActiveLayout keyboard layout))
  | "openwindow" => .ofExcept (do
      let (address, toks) ← next_window_address toks
      let (workspace, toks) ← next_string toks
      let (cls, toks) ← next_string toks
      let (title, _) ← next_string toks
      pure (.OpenWindow address workspace cls title))
  | "closewindow" => .ofExcept (do
      let (address, _) ← next_window_address toks
      pure (.CloseWindow address))
  | "movewindowv2" => .ofExcept (do
      let (address, toks) ← next_window_address toks
      let (workspaceId, toks) ← next_workspace_id toks
      let (workspace, _) ← next_string toks
      pure (.MoveWindow address workspaceId workspace))
  | "openlayer" => .ofExcept (do
      let (namespc, _) ← next_string toks
      pure (.OpenLayer namespc))
  | "closelayer" => .ofExcept (do
      let (namespc, _) ← next_string toks
      pure (.CloseLayer namespc))
  | "submap" => .ofExcept (do
      let (name, _) ← next_string toks
      pure (.SubMap name))
  | "changefloatingmode" => .ofExcept (do
      let (address, toks) ← next_window_address toks
      let (floating, _) ← next_bool toks
      pure (.ChangeFloatingMode address floating))
  | "urgent" => .ofExcept (do
      let (address, _) ← next_window_address toks
      pure (.Urgent address))
  | "screencast" => .ofExcept (do
      let (state, toks) ← next_bool toks
      let (ownerBit, _) ← next_bool toks
      pure (.Screencast state
        (match ownerBit with
          | false => ScreencastOwner.Monitor
          | true => ScreencastOwner.Window)))
  | "windowtitlev2" => .ofExcept (do
      let (address, toks) ← next_window_address toks
      let (title, _) ← next_string toks
      pure (.WindowTitle address title))
  | "togglegroup" => .ofExcept (do
      let (created, toks) ← next_bool toks
      let handles ← vec_window_ids toks
      pure (.ToggleGroup created handles))
  | "moveintogroup" => .ofExcept (do
      let (address, _) ← next_window_address toks
      pure (.MoveIntoGroup address))
  | "moveoutofgroup" => .ofExcept (do
      let (address, _) ← next_window_address toks
      pure (.MoveOutOfGroup address))
  | "ignoregrouplock" => .ofExcept (do
      let (state, _) ← next_bool toks
      pure (.IgnoreGroupLock state))
  | "lockgroups" => .ofExcept (do
      let (state, _) ← next_bool toks
      pure (.LockGroups state))
  | "configreloaded" => .emit .ConfigReloaded
  | "pin" => .ofExcept (do
      let (address, toks) ← next_window_address toks
      let (pinned, _) ← next_bool toks
      pure (.Pin address pinned))
  | "workspace" | "activewindow" | "monitoradded" | "createworkspace"
  | "destroyworkspace" | "moveworkspace" | "movewindow" | "windowtitle" =>
      .skip
  | _ => .fail .unknownTag

/-- The complete set of tags the `match` in `listen` names: the current
(v2) tags plus the eight deprecated legacy tags it skips. Any other tag
falls to the "unknown event" arm. -/
def knownTags : List String :=
  ["workspacev2", "focusedmon", "activewindowv2", "fullscreen",
   "monitorremoved", "monitoraddedv2", "createworkspacev2",
   "destroyworkspacev2", "moveworkspacev2", "renameworkspace",
   "activespecial", "activelayout", "openwindow", "closewindow",
   "movewindowv2", "openlayer", "closelayer", "submap",
   "changefloatingmode", "urgent", "screencast", "windowtitlev2",
   "togglegroup", "moveintogroup", "moveoutofgroup", "ignoregrouplock",
   "lockgroups", "configreloaded", "pin",
   "workspace", "activewindow", "monitoradded", "createworkspace",
   "destroyworkspace", "moveworkspace", "movewindow", "windowtitle"]

/-- The eight deprecated tags that map to a silent skip. -/
def legacyTags : List String :=
  ["workspace", "activewindow", "monitoradded", "createworkspace",
   "destroyworkspace", "moveworkspace", "movewindow", "windowtitle"]

/-! ## Stream read loop (`EventStream::listen`)

One loop iteration reads a line into a fresh buffer, pops its last
character (`line.pop()` — unconditional, whatever that character is; a
zero-byte end-of-file read leaves the buffer empty and the pop is a no-op),
splits on the first `>>`, and decodes. We model one iteration as a function
of the string the read placed in the buffer, and a run of the loop as a
function of the list of successive reads. -/

/-- `line.pop()`: drop the final character, if any. -/
def chopLast (s : String) : String := String.mk s.data.dropLast

/-- `line.split_once(">>")`: split at the first occurrence of `>>`. -/
def splitOnceGtGtAux : List Char → List Char → Option (List Char × List Char)
  | '>' :: '>' :: rest, acc => some (acc.reverse, rest)
  | c :: rest, acc => splitOnceGtGtAux rest (c :: acc)
  | [], _ => none

/-- `line.split_once(">>")` on strings. -/
def splitOnceGtGt (s : String) : Option (String × String) :=
  (splitOnceGtGtAux s.data []).map fun p => (String.mk p.1, String.mk p.2)

/-- One iteration of the read loop, given the string a successful
`read_line` appended to the empty buffer: `some` is an item yielded to the
consumer, `none` means the iteration yielded nothing (legacy skip). The
loop itself never exits — every arm ends in `continue` or falls through to
the next iteration. -/
def processRead (r : String) : Option (Except DecodeError HyprlandEvent) :=
  let line := chopLast r
  match splitOnceGtGt line with
  | none => some (.error .invalidFormat)
  | some (tag, payload) =>
    match decodeEvent tag payload with
    | .emit e => some (.ok e)
    | .skip => none
    | .fail err => some (.error err)

/-- The items the loop yields across a sequence of successful reads. -/
def streamOutputs : List String → List (Except DecodeError HyprlandEvent)
  | [] => []
  | r :: rs =>
    match processRead r with
    | some o => o :: streamOutputs rs
    | none => streamOutputs rs

instance {ε α : Type} [DecidableEq ε] [DecidableEq α] :
    DecidableEq (Except ε α) := fun a b =>
  match a, b with
  | .ok x, .ok y =>
    if h : x = y then .isTrue (by rw [h])
    else .isFalse (by intro hc; cases hc; exact h rfl)
  | .ok _, .error _ => .isFalse (by intro hc; cases hc)
  | .error _, .ok _ => .isFalse (by intro hc; cases hc)
  | .error x, .error y =>
    if h : x = y then .isTrue (by rw [h])
    else .isFalse (by intro hc; cases hc; exact h rfl)

/-! ## Runtime directory and sockets (`hyprland_rundir`, `Command::new`,
`EventStream::listen`)

`hyprland_rundir` reads the current uid and the
`HYPRLAND_INSTANCE_SIGNATURE` environment variable; the environment is
modelled as the optional value of that one variable, the uid as a `Nat`.
Paths are built with `PathBuf::join`, whose Unix `push` semantics are: an
absolute component (leading `/`) *replaces* the whole base; otherwise a
`/` separator is inserted first, unless the base is empty or already ends
in `/`; no normalization of the resulting byte string is performed. -/

/-- Unix `Path::is_absolute` (= `has_root`): the path begins with `/`. -/
def isAbsolutePath (s : String) : Bool :=
  match s.data with
  | c :: _ => c == '/'
  | [] => false

/-- The `need_sep` test of `PathBuf::push`: the base's rightmost byte
exists and is not a separator. -/
def needSep (s : String) : Bool :=
  match s.data.getLast? with
  | some c => !(c == '/')
  | none => false

/-- Unix `PathBuf::join`: replace the base wholesale when the component
is absolute, otherwise append with a separator when one is needed. -/
def pathJoin (base component : String) : String :=
  if isAbsolutePath component then component
  else if needSep base then base ++ "/" ++ component
  else base ++ component

inductive ConfigError where
  /-- "HYPRLAND_INSTANCE_SIGNATURE not set" -/
  | missingInstanceSignature
  deriving DecidableEq

/-- `hyprland_rundir()`:
`PathBuf::from("/run/user").join(uid.to_string()).join("hypr").join(signature)`,
or a configuration error when the signature variable is absent. -/
def hyprland_rundir (uid : Nat) (signature : Option String) :
    Except ConfigError String :=
  match signature with
  | none => .error .missingInstanceSignature
  | some sig =>
      .ok (pathJoin (pathJoin (pathJoin "/run/user" (Nat.repr uid)) "hypr")
        sig)

/-- The command-channel socket path (`Command::new`):
`hyprland_rundir()?.join(".socket.sock")`. -/
def commandSocketPath (uid : Nat) (signature : Option String) :
    Except ConfigError String :=
  (hyprland_rundir uid signature).map (fun dir => pathJoin dir ".socket.sock")

/-- The event-channel socket path (`EventStream::listen`):
`hyprland_rundir()?.join(".socket2.sock")`. -/
def eventSocketPath (uid : Nat) (signature : Option String) :
    Except ConfigError String :=
  (hyprland_rundir uid signature).map (fun dir => pathJoin dir ".socket2.sock")

/-! ## JSON window-address decoding (`window_address_serde::deserialize`)

The command channel's JSON gives addresses as strings; the deserializer
strips any leading `0x` occurrences (`trim_start_matches("0x")`) and then
hex-parses. -/

/-- `s.trim_start_matches("0x")`: remove the prefix `0x` repeatedly. -/
def trimStartMatches0x : List Char → List Char
  | '0' :: 'x' :: rest => trimStartMatches0x rest
  | cs => cs

/-- The string-to-`u64` conversion inside
`window_address_serde::deserialize`. -/
def windowAddressFromJsonString (s : String) : Option WindowAddress :=
  parseHexU64 (String.mk (trimStartMatches0x s.data))

/-! ## Helper lemmas -/

/-- Splitting a character list on commas always yields at least one token. -/
theorem splitCommaAux_ne_nil (cs acc : List Char) :
    splitCommaAux cs acc ≠ [] := by
  induction cs generalizing acc with
  | nil => simp [splitCommaAux]
  | cons c cs ih =>
    simp only [splitCommaAux]
    by_cases hc : c = ','
    · simp [hc]
    · simpa [hc] using ih (c :: acc)

/-- The payload token list is never empty. -/
theorem splitPayload_exists_head (s : String) :
    ∃ t ts, splitPayload s = t :: ts := by
  unfold splitPayload
  cases h : splitCommaAux s.data [] with
  | nil => exact absurd h (splitCommaAux_ne_nil s.data [])
  | cons a as => exact ⟨String.mk a, as.map String.mk, by simp⟩

/-- `Nat.digitChar` of a decimal digit value is never a path separator. -/
theorem digitChar_ne_slash (n : Nat) (hn : n < 10) :
    Nat.digitChar n ≠ '/' := by
  interval_cases n <;> decide

/-- `Nat.toDigitsCore` only prepends digit characters. -/
theorem toDigitsCore_no_slash (fuel : Nat) :
    ∀ (n : Nat) (ds : List Char), (∀ c ∈ ds, c ≠ '/') →
      ∀ c ∈ Nat.toDigitsCore 10 fuel n ds, c ≠ '/' := by
  induction fuel with
  | zero => intro n ds hds; simpa [Nat.toDigitsCore] using hds
  | succ fuel ih =>
    intro n ds hds c hc
    have hcons : ∀ c' ∈ Nat.digitChar (n % 10) :: ds, c' ≠ '/' := by
      intro c' hc'
      rcases List.mem_cons.mp hc' with hc' | hc'
      · exact hc' ▸ digitChar_ne_slash _ (Nat.mod_lt _ (by omega))
      · exact hds c' hc'
    simp only [Nat.toDigitsCore] at hc
    by_cases h0 : n / 10 = 0
    · rw [if_pos h0] at hc
      exact hcons c hc
    · rw [if_neg h0] at hc
      exact ih _ _ hcons c hc

/-- `Nat.toDigitsCore` never discards its accumulator. -/
theorem toDigitsCore_ne_nil (fuel : Nat) :
    ∀ (n : Nat) (ds : List Char), ds ≠ [] →
      Nat.toDigitsCore 10 fuel n ds ≠ [] := by
  induction fuel with
  | zero => intro n ds h; simpa [Nat.toDigitsCore] using h
  | succ fuel ih =>
    intro n ds _
    simp only [Nat.toDigitsCore]
    by_cases h0 : n / 10 = 0
    · rw [if_pos h0]; simp
    · rw [if_neg h0]
      exact ih _ _ (by simp)

/-- A rendered uid contains no path separator. -/
theorem natRepr_no_slash (n : Nat) : ∀ c ∈ (Nat.repr n).data, c ≠ '/' := by
  have hd : (Nat.repr n).data = Nat.toDigitsCore 10 (n + 1) n [] := rfl
  rw [hd]
  exact toDigitsCore_no_slash (n + 1) n [] (by simp)

/-- A rendered uid is never the empty string. -/
theorem natRepr_ne_nil (n : Nat) : (Nat.repr n).data ≠ [] := by
  have hd : (Nat.repr n).data = Nat.toDigitsCore 10 (n + 1) n [] := rfl
  rw [hd]
  simp only [Nat.toDigitsCore]
  by_cases h0 : n / 10 = 0
  · rw [if_pos h0]; simp
  · rw [if_neg h0]
    exact toDigitsCore_ne_nil n _ _ (by simp)

/-- `pathJoin` on a relative component with a separator-needing base is
plain `/`-separated concatenation. -/
theorem pathJoin_rel (base component : String)
    (h1 : isAbsolutePath component = false) (h2 : needSep base = true) :
    pathJoin base component = base ++ "/" ++ component := by
  simp [pathJoin, h1, h2]

/-- `pathJoin` on an absolute component discards the base. -/
theorem pathJoin_abs (base component : String)
    (h : isAbsolutePath component = true) :
    pathJoin base component = component := by
  simp [pathJoin, h]

/-- The separator test only looks at the last character, hence at the
right operand of a concatenation when that operand is non-empty. -/
theorem needSep_append (a b : String) (h : b.data ≠ []) :
    needSep (a ++ b) = needSep b := by
  unfold needSep
  have hd : (a ++ b).data = a.data ++ b.data := rfl
  rw [hd, List.getLast?_append]
  cases hb : b.data.getLast? with
  | none => exact absurd (List.getLast?_eq_none_iff.mp hb) h
  | some c => rfl

/-- A separator-needing string is non-empty. -/
theorem needSep_ne_nil (s : String) (h : needSep s = true) : s.data ≠ [] := by
  intro hnil
  unfold needSep at h
  rw [hnil] at h
  simp at h

/-- A non-empty string without `/` needs a separator after it. -/
theorem needSep_of_no_slash (s : String) (hne : s.data ≠ [])
    (h : ∀ c ∈ s.data, c ≠ '/') : needSep s = true := by
  unfold needSep
  cases hl : s.data.getLast? with
  | none => exact absurd (List.getLast?_eq_none_iff.mp hl) hne
  | some c =>
    have hc := h c (List.mem_of_getLast?_eq_some hl)
    simp [hc]

/-- A string without `/` is not absolute. -/
theorem isAbsolutePath_of_no_slash (s : String)
    (h : ∀ c ∈ s.data, c ≠ '/') : isAbsolutePath s = false := by
  unfold isAbsolutePath
  cases hd : s.data with
  | nil => rfl
  | cons c cs =>
    have hc := h c (hd ▸ List.mem_cons_self c cs)
    simp [hc]

/-- The full join chain for a relative, separator-needing signature is
the plain `/`-separated concatenation. -/
theorem rundirJoin_eq (uid : Nat) (sig file : String)
    (hfile : isAbsolutePath file = false)
    (habs : isAbsolutePath sig = false) (hsep : needSep sig = true) :
    pathJoin (pathJoin (pathJoin (pathJoin "/run/user" (Nat.repr uid))
        "hypr") sig) file
      = "/run/user/" ++ Nat.repr uid ++ "/hypr/" ++ sig ++ "/" ++ file := by
  have hu_abs : isAbsolutePath (Nat.repr uid) = false :=
    isAbsolutePath_of_no_slash _ (natRepr_no_slash uid)
  have hu_sep : needSep (Nat.repr uid) = true :=
    needSep_of_no_slash _ (natRepr_ne_nil uid) (natRepr_no_slash uid)
  rw [pathJoin_rel _ _ hu_abs (by decide)]
  rw [pathJoin_rel _ _ (by decide : isAbsolutePath "hypr" = false)
    (by rw [needSep_append _ _ (natRepr_ne_nil uid)]; exact hu_sep)]
  rw [pathJoin_rel _ _ habs
    (by rw [needSep_append _ _ (by decide : ("hypr" : String).data ≠ [])]
        decide)]
  rw [pathJoin_rel _ _ hfile
    (by rw [needSep_append _ _ (needSep_ne_nil sig hsep)]; exact hsep)]
  rw [show ("/run/user/" : String) = "/run/user" ++ "/" from by decide,
    show ("/hypr/" : String) = ("/" ++ "hypr") ++ "/" from by decide]
  simp only [String.append_assoc]

/-- The full join chain for an absolute, separator-needing signature
discards the runtime-directory base entirely. -/
theorem rundirJoin_abs_eq (uid : Nat) (sig file : String)
    (hfile : isAbsolutePath file = false)
    (habs : isAbsolutePath sig = true) (hsep : needSep sig = true) :
    pathJoin (pathJoin (pathJoin (pathJoin "/run/user" (Nat.repr uid))
        "hypr") sig) file = sig ++ "/" ++ file := by
  rw [pathJoin_abs _ _ habs, pathJoin_rel _ _ hfile hsep]

/-! ## Claims -/

/-- C2 counterexample: at `next := true, monitor := true` the encoder does
not produce the string that the claimed construction — `n` appended before
`m` — produces; the code writes `emptymn`, the claimed order writes
`emptynm`. -/
theorem c2_counterexample :
    (WorkspaceSpec.Empty true true).display = "emptymn" ∧
    emptyAppendedNBeforeM true true = "emptynm" ∧
    (WorkspaceSpec.Empty true true).display ≠ emptyAppendedNBeforeM true true := by
  decide

/-- C2 (amended): encoding `Empty{next, monitor}` yields the literal
`empty`, with `m` appended if `monitor` is true and `n` appended if `next`
is true, in that fixed order (`m` before `n`): `emptymn` when both are
true, `emptyn` when only `next`, `emptym` when only `monitor`, `empty`
when both are false. -/
theorem c2_empty_encoding :
    (∀ next monitor : Bool, (WorkspaceSpec.Empty next monitor).display =
      "empty" ++ (if monitor then "m" else "") ++ (if next then "n" else "")) ∧
    (WorkspaceSpec.Empty true true).display = "emptymn" ∧
    (WorkspaceSpec.Empty true false).display = "emptyn" ∧
    (WorkspaceSpec.Empty false true).display = "emptym" ∧
    (WorkspaceSpec.Empty false false).display = "empty" := by
  refine ⟨fun next monitor => ?_, by decide, by decide, by decide, by decide⟩
  cases next <;> cases monitor <;> decide

/-- C3: every `WorkspaceSpec` variant encodes to exactly the literal
string of the §4.3 table — `Id` as plain decimal (with `-` when negative),
the relative forms as signed decimal with an explicit sign, the
monitor/`r`/`e` forms with their prefix letter and `~` for the absolute
variants, `name:`/`special:` with the verbatim name, and the fixed words
`previous`, `previous_per_monitor`, `special`; a `ChangeWorkspace`
dispatcher is `"workspace "` followed by the spec's encoding. -/
theorem c3_workspace_spec_encoding :
    (∀ n : Int, (WorkspaceSpec.Id n).display =
      (if n < 0 then "-" ++ Nat.repr n.natAbs else Nat.repr n.natAbs)) ∧
    (∀ n : Int, (WorkspaceSpec.RelativeId n).display =
      (if n < 0 then "-" ++ Nat.repr n.natAbs else "+" ++ Nat.repr n.natAbs)) ∧
    (∀ n : Int, (WorkspaceSpec.MonitorRelativeId n).display =
      "m" ++ (WorkspaceSpec.RelativeId n).display) ∧
    (∀ n : Nat, (WorkspaceSpec.MonitorAbsoluteId n).display =
      "m~" ++ Nat.repr n) ∧
    (∀ n : Int, (WorkspaceSpec.MonitorIncludingEmptyRelativeId n).display =
      "r" ++ (WorkspaceSpec.RelativeId n).display) ∧
    (∀ n : Nat, (WorkspaceSpec.MonitorIncludingEmptyAbsoluteId n).display =
      "r~" ++ Nat.repr n) ∧
    (∀ n : Int, (WorkspaceSpec.OpenRelativeId n).display =
      "e" ++ (WorkspaceSpec.RelativeId n).display) ∧
    (∀ n : Nat, (WorkspaceSpec.OpenAbsoluteId n).display =
      "e~" ++ Nat.repr n) ∧
    (∀ s : String, (WorkspaceSpec.Name s).display = "name:" ++ s) ∧
    WorkspaceSpec.Previous.display = "previous" ∧
    WorkspaceSpec.PreviousPerMonitor.display = "previous_per_monitor" ∧
    (WorkspaceSpec.Special none).display = "special" ∧
    (∀ s : String, (WorkspaceSpec.Special (some s)).display =
      "special:" ++ s) ∧
    (∀ spec : WorkspaceSpec, (Dispatcher.ChangeWorkspace spec).display =
      "workspace " ++ spec.display) ∧
    (WorkspaceSpec.Id 1).display = "1" ∧
    (WorkspaceSpec.Id (-3)).display = "-3" ∧
    (WorkspaceSpec.RelativeId 1).display = "+1" ∧
    (WorkspaceSpec.RelativeId (-1)).display = "-1" ∧
    (WorkspaceSpec.MonitorRelativeId 1).display = "m+1" ∧
    (WorkspaceSpec.MonitorAbsoluteId 1).display = "m~1" ∧
    (WorkspaceSpec.MonitorIncludingEmptyRelativeId 1).display = "r+1" ∧
    (WorkspaceSpec.MonitorIncludingEmptyAbsoluteId 1).display = "r~1" ∧
    (WorkspaceSpec.OpenRelativeId 1).display = "e+1" ∧
    (WorkspaceSpec.OpenAbsoluteId 1).display = "e~1" ∧
    (WorkspaceSpec.Name "web").display = "name:web" ∧
    (WorkspaceSpec.Special (some "scratch")).display = "special:scratch" := by
  refine ⟨fun n => rfl, fun n => rfl, fun n => rfl, fun n => rfl,
    fun n => rfl, fun n => rfl, fun n => rfl, fun n => rfl, fun s => rfl,
    rfl, rfl, rfl, fun s => rfl, fun spec => rfl,
    by decide, by decide, by decide, by decide, by decide, by decide,
    by decide, by decide, by decide, by decide, by decide, by decide⟩

/-- C1 counterexample: decoding `togglegroup>>1,1a,2b` does not yield a
`ToggleGroup` event at all — `next_bool` rejects the token `1` — so in
particular it yields neither hex-collected (`[0x1a, 0x2b]`) nor
decimal-collected handles. -/
theorem c1_counterexample :
    decodeEvent "togglegroup" "1,1a,2b" = .fail .invalidBoolean ∧
    decodeEvent "togglegroup" "1,1a,2b" ≠
      .emit (.ToggleGroup true [0x1a, 0x2b]) := by
  decide

/-- C1 (amended): `next_bool` accepts exactly the canonical boolean
literals `true`/`false` and fails with `InvalidBoolean` on any other
token, so decoding `togglegroup>>1,1a,2b` fails with `InvalidBoolean` (the
first token is `1`); with a canonical boolean first token the remaining
tokens are collected as handles via the *decimal* parser, so
`togglegroup>>true,26,43` yields `ToggleGroup{created: true, handles:
[26, 43]}` while `togglegroup>>true,1a,2b` fails with
`InvalidWindowAddress` (hex-looking tokens are not decimal). -/
theorem c1_togglegroup_decode :
    decodeEvent "togglegroup" "1,1a,2b" = .fail .invalidBoolean ∧
    (∀ s : String, s ≠ "true" → s ≠ "false" → parseBool s = none) ∧
    parseBool "true" = some true ∧
    parseBool "false" = some false ∧
    decodeEvent "togglegroup" "true,26,43" =
      .emit (.ToggleGroup true [26, 43]) ∧
    decodeEvent "togglegroup" "true,1a,2b" = .fail .invalidWindowAddress := by
  refine ⟨by decide, fun s hs hf => ?_, by decide, by decide, by decide,
    by decide⟩
  simp [parseBool, hs, hf]

/-- C1 witness: the boolean-literal exactness applied at token `1`. -/
theorem c1_togglegroup_decode_witness : parseBool "1" = none :=
  c1_togglegroup_decode.2.1 "1" (by decide) (by decide)

/-- C4: every line with one of the eight legacy tags decodes to `Skip`
for any payload; any tag outside the known set decodes to
`Fail(UnknownTag)`; and in both cases one loop iteration yields at most
one item and processing continues with the remaining records, shown
generally and on concrete two-record runs. -/
theorem c4_legacy_and_unknown_tags :
    (∀ payload : String,
      decodeEvent "workspace" payload = .skip ∧
      decodeEvent "activewindow" payload = .skip ∧
      decodeEvent "monitoradded" payload = .skip ∧
      decodeEvent "createworkspace" payload = .skip ∧
      decodeEvent "destroyworkspace" payload = .skip ∧
      decodeEvent "moveworkspace" payload = .skip ∧
      decodeEvent "movewindow" payload = .skip ∧
      decodeEvent "windowtitle" payload = .skip) ∧
    (∀ tag payload : String, tag ∉ knownTags →
      decodeEvent tag payload = .fail .unknownTag) ∧
    (∀ (r : String) (rs : List String), processRead r = none →
      streamOutputs (r :: rs) = streamOutputs rs) ∧
    (∀ (r : String) (rs : List String) o, processRead r = some o →
      streamOutputs (r :: rs) = o :: streamOutputs rs) ∧
    streamOutputs ["workspace>>1,a\n", "workspacev2>>3,web\n"] =
      [.ok (.WorkspaceChanged 3 "web")] ∧
    streamOutputs ["bogus>>x,y\n", "workspacev2>>3,web\n"] =
      [.error .unknownTag, .ok (.WorkspaceChanged 3 "web")] := by
  refine ⟨fun payload => ⟨rfl, rfl, rfl, rfl, rfl, rfl, rfl, rfl⟩,
    fun tag payload h => ?_, fun r rs h => ?_, fun r rs o h => ?_,
    by decide, by decide⟩
  · unfold decodeEvent
    split
    all_goals first
      | rfl
      | (exact absurd (by decide) h)
  · simp [streamOutputs, h]
  · simp [streamOutputs, h]

/-- C4 witness: the unknown-tag arm applied at tag `bogus`, and the
skip-continues arm applied at a concrete legacy record. -/
theorem c4_legacy_and_unknown_tags_witness :
    decodeEvent "bogus" "x,y" = .fail .unknownTag ∧
    streamOutputs ["workspace>>1,a\n"] = streamOutputs [] ∧
    streamOutputs ["bogus>>x,y\n"] =
      .error DecodeError.unknownTag :: streamOutputs [] :=
  ⟨c4_legacy_and_unknown_tags.2.1 "bogus" "x,y" (by decide),
   c4_legacy_and_unknown_tags.2.2.1 "workspace>>1,a\n" [] (by decide),
   c4_legacy_and_unknown_tags.2.2.2.1 "bogus>>x,y\n" []
     (.error DecodeError.unknownTag) (by decide)⟩

/-- C5: `activewindowv2>>,` decodes to `ActiveWindow{address: None}` and
`activewindowv2>>1a2b,` to `ActiveWindow{address: Some(0x1a2b)}`; in
general the optional-address consumer maps an empty token to `none`,
a non-empty base-16 token to `some` of its value, and fails with
`InvalidInteger` on a non-empty unparseable token. -/
theorem c5_activewindowv2_decode :
    decodeEvent "activewindowv2" "," = .emit (.ActiveWindow none) ∧
    decodeEvent "activewindowv2" "1a2b," =
      .emit (.ActiveWindow (some 0x1a2b)) ∧
    (∀ ts : Tokens,
      DataParser.next_maybe_window_address ("" :: ts) = .ok (none, ts)) ∧
    (∀ (t : String) (ts : Tokens) (n : Nat), t ≠ "" →
      parseHexU64 t = some n →
      DataParser.next_maybe_window_address (t :: ts) = .ok (some n, ts)) ∧
    (∀ (t : String) (ts : Tokens), t ≠ "" → parseHexU64 t = none →
      DataParser.next_maybe_window_address (t :: ts) =
        .error .invalidInteger) := by
  refine ⟨by decide, by decide, fun ts => rfl,
    fun t ts n ht hp => ?_, fun t ts ht hp => ?_⟩
  · simp [DataParser.next_maybe_window_address, DataParser.next,
      Bind.bind, Except.bind, ht, hp, pure, Except.pure]
  · simp [DataParser.next_maybe_window_address, DataParser.next,
      Bind.bind, Except.bind, ht, hp]

/-- C5 witness: the optional-address consumer applied at the tokens
`1a2b` (hex-parseable) and `0x1a2b` (non-empty, unparseable). -/
theorem c5_activewindowv2_decode_witness :
    DataParser.next_maybe_window_address ["1a2b"] = .ok (some 6699, []) ∧
    DataParser.next_maybe_window_address ["0x1a2b"] =
      .error .invalidInteger :=
  ⟨c5_activewindowv2_decode.2.2.2.1 "1a2b" [] 6699 (by decide) (by decide),
   c5_activewindowv2_decode.2.2.2.2 "0x1a2b" [] (by decide) (by decide)⟩

/-- C6: `workspacev2>>3,web` decodes to `WorkspaceChanged{id: 3, name:
"web"}`; in general the workspace-id consumer parses its token as a
base-16 signed 32-bit integer and fails with `InvalidInteger` on parse
failure, and the string consumer takes its token verbatim. -/
theorem c6_workspacev2_decode :
    decodeEvent "workspacev2" "3,web" =
      .emit (.WorkspaceChanged 3 "web") ∧
    (∀ (t : String) (ts : Tokens) (n : Int), parseHexI32 t = some n →
      DataParser.next_workspace_id (t :: ts) = .ok (n, ts)) ∧
    (∀ (t : String) (ts : Tokens), parseHexI32 t = none →
      DataParser.next_workspace_id (t :: ts) = .error .invalidInteger) ∧
    (∀ (t : String) (ts : Tokens),
      DataParser.next_string (t :: ts) = .ok (t, ts)) := by
  refine ⟨by decide, fun t ts n hp => ?_, fun t ts hp => ?_,
    fun t ts => rfl⟩
  · simp [DataParser.next_workspace_id, DataParser.next,
      Bind.bind, Except.bind, hp, pure, Except.pure]
  · simp [DataParser.next_workspace_id, DataParser.next,
      Bind.bind, Except.bind, hp]

/-- C6 witness: the workspace-id consumer applied at the tokens `3`
(hex-parseable) and `web` (unparseable). -/
theorem c6_workspacev2_decode_witness :
    DataParser.next_workspace_id ["3", "web"] = .ok (3, ["web"]) ∧
    DataParser.next_workspace_id ["web"] = .error .invalidInteger :=
  ⟨c6_workspacev2_decode.2.1 "3" ["web"] 3 (by decide),
   c6_workspacev2_decode.2.2.1 "web" [] (by decide)⟩

/-- C7: the tokenizer's hex address path is base-16-only with no `0x`
stripping — `next_window_address` maps `1a2b` to `0x1a2b` and fails with
`InvalidInteger` on `0x1a2b` — while the command-channel JSON string
decoder strips the `0x` prefix, so `"0x55d2a1"` decodes to `0x55d2a1`. -/
theorem c7_hex_asymmetry :
    DataParser.next_window_address ["1a2b"] = .ok (0x1a2b, []) ∧
    DataParser.next_window_address ["0x1a2b"] = .error .invalidInteger ∧
    parseHexU64 "1a2b" = some 0x1a2b ∧
    parseHexU64 "0x1a2b" = none ∧
    windowAddressFromJsonString "0x55d2a1" = some 0x55d2a1 := by
  decide

/-- C8 counterexample: with the signature set to the absolute string
`/evil`, `PathBuf::join` replaces the runtime-directory base, so the
program connects to `/evil/.socket.sock` — not to the claimed
`{root}/{uid}/hypr/{signature}/.socket.sock` concatenation. -/
theorem c8_counterexample :
    commandSocketPath 1000 (some "/evil") = .ok "/evil/.socket.sock" ∧
    eventSocketPath 1000 (some "/evil") = .ok "/evil/.socket2.sock" ∧
    ("/evil/.socket.sock" : String) ≠
      "/run/user/" ++ Nat.repr 1000 ++ "/hypr/" ++ "/evil" ++
        "/.socket.sock" := by
  decide

/-- C8 (amended): socket-path resolution fails with the configuration
error exactly when the `HYPRLAND_INSTANCE_SIGNATURE` value is absent, as
a function of the uid and signature alone. When the signature is present,
relative and does not end in a path separator, the command socket is
`/run/user/{uid}/hypr/{signature}/.socket.sock` and the event socket is
the same directory's `.socket2.sock`; per `PathBuf::join` semantics an
absolute signature replaces the base wholesale, yielding
`{signature}/.socket.sock` and `{signature}/.socket2.sock`, and an empty
signature yields `/run/user/{uid}/hypr/.socket.sock` with no doubled
separator. -/
theorem c8_socket_paths :
    (∀ uid : Nat,
      commandSocketPath uid none = .error .missingInstanceSignature ∧
      eventSocketPath uid none = .error .missingInstanceSignature) ∧
    (∀ (uid : Nat) (sig : String),
      isAbsolutePath sig = false → needSep sig = true →
      commandSocketPath uid (some sig) =
        .ok ("/run/user/" ++ Nat.repr uid ++ "/hypr/" ++ sig ++
          "/.socket.sock") ∧
      eventSocketPath uid (some sig) =
        .ok ("/run/user/" ++ Nat.repr uid ++ "/hypr/" ++ sig ++
          "/.socket2.sock")) ∧
    (∀ (uid : Nat) (sig : String),
      isAbsolutePath sig = true → needSep sig = true →
      commandSocketPath uid (some sig) = .ok (sig ++ "/.socket.sock") ∧
      eventSocketPath uid (some sig) = .ok (sig ++ "/.socket2.sock")) ∧
    commandSocketPath 1000 (some "") =
      .ok "/run/user/1000/hypr/.socket.sock" ∧
    eventSocketPath 1000 (some "") =
      .ok "/run/user/1000/hypr/.socket2.sock" := by
  refine ⟨fun uid => ⟨rfl, rfl⟩, fun uid sig habs hsep => ⟨?_, ?_⟩,
    fun uid sig habs hsep => ⟨?_, ?_⟩, by decide, by decide⟩
  · have h1 : commandSocketPath uid (some sig) =
        .ok (pathJoin (pathJoin (pathJoin (pathJoin "/run/user"
          (Nat.repr uid)) "hypr") sig) ".socket.sock") := rfl
    rw [h1, rundirJoin_eq uid sig ".socket.sock" (by decide) habs hsep,
      String.append_assoc,
      show ("/" : String) ++ ".socket.sock" = "/.socket.sock" from by decide]
  · have h1 : eventSocketPath uid (some sig) =
        .ok (pathJoin (pathJoin (pathJoin (pathJoin "/run/user"
          (Nat.repr uid)) "hypr") sig) ".socket2.sock") := rfl
    rw [h1, rundirJoin_eq uid sig ".socket2.sock" (by decide) habs hsep,
      String.append_assoc,
      show ("/" : String) ++ ".socket2.sock" = "/.socket2.sock" from
        by decide]
  · have h1 : commandSocketPath uid (some sig) =
        .ok (pathJoin (pathJoin (pathJoin (pathJoin "/run/user"
          (Nat.repr uid)) "hypr") sig) ".socket.sock") := rfl
    rw [h1, rundirJoin_abs_eq uid sig ".socket.sock" (by decide) habs hsep,
      String.append_assoc,
      show ("/" : String) ++ ".socket.sock" = "/.socket.sock" from by decide]
  · have h1 : eventSocketPath uid (some sig) =
        .ok (pathJoin (pathJoin (pathJoin (pathJoin "/run/user"
          (Nat.repr uid)) "hypr") sig) ".socket2.sock") := rfl
    rw [h1, rundirJoin_abs_eq uid sig ".socket2.sock" (by decide) habs hsep,
      String.append_assoc,
      show ("/" : String) ++ ".socket2.sock" = "/.socket2.sock" from
        by decide]

/-- C8 witness: the relative-signature arm at uid 1000 and signature
`abc123`, and the absolute-signature arm at `/evil`. -/
theorem c8_socket_paths_witness :
    commandSocketPath 1000 (some "abc123") =
      .ok ("/run/user/" ++ Nat.repr 1000 ++ "/hypr/" ++ "abc123" ++
        "/.socket.sock") ∧
    commandSocketPath 1000 (some "/evil") = .ok ("/evil" ++ "/.socket.sock") :=
  ⟨(c8_socket_paths.2.1 1000 "abc123" (by decide) (by decide)).1,
   (c8_socket_paths.2.2.1 1000 "/evil" (by decide) (by decide)).1⟩

/-- C9: the read loop drops the last character of the buffer
unconditionally — `chopLast (s.push c) = s` for *any* final character,
shown also on a line with no trailing newline, where the payload's last
byte is lost — and a zero-byte end-of-file read leaves the empty buffer,
which has no `>>`, so every post-EOF iteration yields the `InvalidFormat`
error item: a run of `n` EOF reads yields exactly `n` such items and the
loop never terminates. -/
theorem c9_eof_invalid_format_forever :
    (∀ (s : String) (c : Char), chopLast (String.push s c) = s) ∧
    splitOnceGtGt "" = none ∧
    processRead "" = some (.error .invalidFormat) ∧
    processRead "workspacev2>>3,web" =
      some (.ok (.WorkspaceChanged 3 "we")) ∧
    (∀ n : Nat, streamOutputs (List.replicate n "") =
      List.replicate n (.error .invalidFormat)) := by
  refine ⟨fun s c => ?_, by decide, by decide, by decide, fun n => ?_⟩
  · cases s with
    | mk d => simp [chopLast, String.push, List.dropLast_concat]
  · induction n with
    | zero => rfl
    | succ k ih => simp [List.replicate, streamOutputs, ih]; rfl

/-- C10: splitting a payload on `,` always yields at least one token (the
empty payload yields one empty token), so the first typed consume never
hits `UnexpectedEof`; in particular `activewindowv2>>` decodes to
`ActiveWindow{address: None}`, both at the decoder and through a full
read-loop iteration. -/
theorem c10_first_consume_never_eof :
    (∀ s : String, ∃ t ts, splitPayload s = t :: ts) ∧
    (∀ s : String, ∃ t ts, DataParser.next (splitPayload s) = .ok (t, ts)) ∧
    splitPayload "" = [""] ∧
    decodeEvent "activewindowv2" "" = .emit (.ActiveWindow none) ∧
    processRead "activewindowv2>>\n" = some (.ok (.ActiveWindow none)) := by
  refine ⟨splitPayload_exists_head, fun s => ?_, by decide, by decide,
    by decide⟩
  obtain ⟨t, ts, h⟩ := splitPayload_exists_head s
  exact ⟨t, ts, by rw [h]; rfl⟩
